import Mathlib

/-!
Shallow embedding of the PROXY repository (src/main.py), a FastAPI
credential-shielding forwarding proxy for the ARC and IRRMS telemetry
upstreams, together with theorems settling the specification claims.

Modelling conventions:
* Python `Optional[T]` becomes `Option T`; Python truthiness of strings
  (`None` and `""` are falsy) and ints (`None` and `0` are falsy) is made
  explicit in `pyOrStr` / `pyOrInt`.
* The outbound HTTP layer (`requests.Session`) is abstracted as a
  `Transport` oracle mapping the constructed request to either a response
  or a raised exception; every endpoint additionally returns the list of
  outbound requests it issued (its trace), so call-counting properties can
  be stated.
* `r.json()` (whether the body parses as JSON) is carried on the response
  as `HttpResponse.json : Option Json`: `some j` when parsing the body
  succeeds with value `j`, `none` when it raises.
* `datetime.utcnow()` is modelled as a `Nat` count of seconds since the
  Unix epoch; `strftime` is implemented over it (Gregorian civil-date
  conversion plus zero padding).
-/

/-- A minimal JSON value type for payloads and parsed bodies. -/
inductive Json where
  | null : Json
  | bool (b : Bool) : Json
  | num (n : Int) : Json
  | str (s : String) : Json
  | arr (elems : List Json) : Json
  | obj (fields : List (String × Json)) : Json

/-- Dictionary access `d.get(k)` on a JSON object; `none` on non-objects. -/
def Json.lookup : Json → String → Option Json
  | .obj fields, k => fields.lookup k
  | _, _ => none

/-- HTTP methods used by the proxy. -/
inductive Method where
  | GET : Method
  | POST : Method
deriving DecidableEq, Repr

/-- An outbound HTTP request as constructed by the proxy: method, URL,
headers, and optional JSON payload. -/
structure HttpRequest where
  method : Method
  url : String
  headers : List (String × String)
  body : Option Json

/-- An upstream HTTP response: status code, raw body text, the outcome of
`r.json()` (`some` iff the body parses as JSON), and response headers. -/
structure HttpResponse where
  status_code : Nat
  text : String
  json : Option Json
  headers : List (String × String)

/-- Outcome of one `session.<method>(...)` call as seen by an endpoint:
either a response object, or a raised exception with its message. -/
inductive TransportResult where
  | ok (r : HttpResponse) : TransportResult
  | exn (msg : String) : TransportResult

/-- The outbound HTTP layer, abstracted as an oracle from the request the
proxy constructs to what `session.request` produces. -/
def Transport : Type := HttpRequest → TransportResult

/-- The `HTTPException(status_code, detail)` raised by endpoints. -/
structure HTTPError where
  status_code : Nat
  detail : String
deriving DecidableEq, Repr

/-- Python `a or b` for `Optional[str]` values: `None` and `""` are falsy. -/
def pyOrStr (a : Option String) (b : Option String) : Option String :=
  match a with
  | none => b
  | some s => if s = "" then b else some s

/-- Python `a or b` for an `Optional[int]` with an int fallback: `None` and
`0` are falsy. -/
def pyOrInt (a : Option Int) (b : Int) : Int :=
  match a with
  | none => b
  | some n => if n = 0 then b else n

/-- Python string slicing `s[:n]`, which truncates to the first `n` code
points; `String.data` is the code-point list, so `List.take` is exact. -/
def pyTruncate (s : String) (n : Nat) : String :=
  ⟨s.data.take n⟩

/-- Process-wide configuration (the module-level environment constants of
src/main.py lines 21-39): proxy secret, upstream URLs, and the
`IRRMS_KEYS` dict whose values are `os.environ.get` results, hence
possibly unset. -/
structure ProxyConfig where
  proxySecret : String
  arcLoginUrl : String
  arcLiveUrl : String
  irrmsLoginUrl : String
  irrmsDataUrl : String
  irrmsKeys : List (String × Option String)

/-- src/main.py lines 56-62, `check_auth`: 401 when the header is absent,
403 when present but different from `PROXY_SECRET`, success otherwise. -/
def check_auth (cfg : ProxyConfig) (secret_header : Option String) :
    Except HTTPError Unit :=
  match secret_header with
  | none => .error ⟨401, "Missing X-Proxy-Secret"⟩
  | some s =>
    if s ≠ cfg.proxySecret then .error ⟨403, "Invalid X-Proxy-Secret"⟩
    else .ok ()

/-- Python `str.upper()` restricted to its ASCII behaviour, written over
the character list so it evaluates by kernel reduction. -/
def pyUpper (s : String) : String :=
  ⟨s.data.map Char.toUpper⟩

/-- src/main.py lines 65-66, `get_irrms_key_for_shed`:
`IRRMS_KEYS.get(shed.upper())`; the values of the dict are themselves
optional, so the two layers of absence are joined. -/
def get_irrms_key_for_shed (cfg : ProxyConfig) (shed : String) :
    Option String :=
  (cfg.irrmsKeys.lookup (pyUpper shed)).join

/-- src/main.py lines 72-75, request model `IRRMSFetchRequest`. -/
structure IRRMSFetchRequest where
  shed_name : String
  shedId : Option Int
  authenticateKey : Option String

/-- An `IRRMSFetchRequest` body in which `shedId` and `authenticateKey`
are omitted, taking their pydantic defaults (`0` and `None`). -/
def IRRMSFetchRequest.mkDefault (shed_name : String) : IRRMSFetchRequest :=
  ⟨shed_name, some 0, none⟩

/-- src/main.py lines 78-79, request model `ARCFetchRequest`. -/
structure ARCFetchRequest where
  page : Option Int

/-- An `ARCFetchRequest` body in which `page` is omitted, taking its
pydantic default `1`. -/
def ARCFetchRequest.mkDefault : ARCFetchRequest := ⟨some 1⟩

/-! Civil-date conversion and `strftime`, for the date-window fields of
the IRRMS payload (src/main.py lines 147-164). Instants are seconds
since the Unix epoch (1970-01-01 00:00:00 UTC), as produced by
`datetime.utcnow()`. -/

/-- Gregorian civil date `(year, month, day)` of a day count since
1970-01-01 (days ≥ 0), by the standard era/day-of-era decomposition. -/
def civilFromDays (days : Nat) : Nat × Nat × Nat :=
  let z := days + 719468
  let era := z / 146097
  let doe := z % 146097
  let yoe := (doe - doe / 1460 + doe / 36524 - doe / 146096) / 365
  let y := yoe + era * 400
  let doy := doe - (365 * yoe + yoe / 4 - yoe / 100)
  let mp := (5 * doy + 2) / 153
  let d := doy - (153 * mp + 2) / 5 + 1
  let m := if mp < 10 then mp + 3 else mp - 9
  (if m ≤ 2 then y + 1 else y, m, d)

/-- Zero-padded two-digit decimal rendering, as `strftime` does for
`%d`, `%m`, `%H`, `%M`, `%S`. -/
def pad2 (n : Nat) : String :=
  if n < 10 then "0" ++ toString n else toString n

/-- Rendering of an epoch-second instant by the strftime format string "%d-%m-%Y". -/
def fmtDate (t : Nat) : String :=
  let c := civilFromDays (t / 86400)
  pad2 c.2.2 ++ "-" ++ pad2 c.2.1 ++ "-" ++ toString c.1

/-- Rendering of an epoch-second instant by the strftime format string "%d-%m-%Y %H:%M:%S". -/
def fmtDateTime (t : Nat) : String :=
  fmtDate t ++ " " ++ pad2 (t % 86400 / 3600) ++ ":" ++
    pad2 (t % 3600 / 60) ++ ":" ++ pad2 (t % 60)

/-- src/main.py lines 152-164: the IRRMS data-fetch payload built from the
current instant `now` and the resolved `shed_id`. -/
def irrmsPayload (now : Nat) (shed_id : Int) : Json :=
  .obj [
    ("locoId", .num 0),
    ("locoTypeId", .num 0),
    ("shedId", .num shed_id),
    ("vendorId", .num 0),
    ("startDate", .str (fmtDate now)),
    ("endDate", .str (fmtDate (now + 86400))),
    ("actionMode", .str "temperatureventilation"),
    ("fromDateTime", .str (fmtDateTime (now - 15 * 60))),
    ("toDateTime", .str (fmtDateTime (now + 5 * 60))),
    ("locoNo", .str "All"),
    ("refId", .str "GetSearchData")]

/-- src/main.py lines 139-145: the fixed IRRMS headers carrying the
resolved key as `Authorization`. -/
def irrmsHeaders (auth_key : String) : List (String × String) :=
  [("Content-Type", "application/json; charset=UTF-8"),
   ("Origin", "https://irrms.locomatrice.com"),
   ("Referer", "https://irrms.locomatrice.com/"),
   ("Accept", "application/json, text/plain, */*"),
   ("Authorization", auth_key)]

/-- The single outbound request `irrms_fetch` issues (src/main.py lines
167-168): a POST of the time-window payload to `IRRMS_DATA_URL` with the
IRRMS headers. -/
def irrmsDataRequest (cfg : ProxyConfig) (now : Nat) (shed_id : Int)
    (auth_key : String) : HttpRequest :=
  ⟨.POST, cfg.irrmsDataUrl, irrmsHeaders auth_key,
    some (irrmsPayload now shed_id)⟩

/-- The uniform response envelope `{status_code, json|text}` returned by
the fetch endpoints. -/
structure FetchEnvelope where
  status_code : Nat
  json : Option Json
  text : Option String

/-- src/main.py lines 170-173 and 195-198 (identical in `irrms_fetch` and
`arc_fetch`): `try: {status_code, json: r.json()} except: {status_code,
text: r.text[:2000]}`. -/
def normalizeResp (r : HttpResponse) : FetchEnvelope :=
  match r.json with
  | some j => ⟨r.status_code, some j, none⟩
  | none => ⟨r.status_code, none, some (pyTruncate r.text 2000)⟩

/-- src/main.py lines 123-177, endpoint `POST /api/irrms/fetch`: auth
check, credential resolution (`body.authenticateKey or
get_irrms_key_for_shed(shed)`, 400 when falsy), then a single POST of the
time-window payload to `IRRMS_DATA_URL`, normalized json-or-text;
a raised transport exception becomes a 500. Returns the endpoint result
paired with the trace of outbound requests issued. -/
def irrms_fetch (cfg : ProxyConfig) (t : Transport) (now : Nat)
    (body : IRRMSFetchRequest) (x_proxy_secret : Option String) :
    Except HTTPError FetchEnvelope × List HttpRequest :=
  match check_auth cfg x_proxy_secret with
  | .error e => (.error e, [])
  | .ok () =>
    let shed := body.shed_name
    let shed_id := pyOrInt body.shedId 0
    match pyOrStr body.authenticateKey (get_irrms_key_for_shed cfg shed) with
    | none => (.error ⟨400, "No authenticateKey found for shed"⟩, [])
    | some auth_key =>
      if auth_key = "" then
        (.error ⟨400, "No authenticateKey found for shed"⟩, [])
      else
        let req := irrmsDataRequest cfg now shed_id auth_key
        match t req with
        | .ok r => (.ok (normalizeResp r), [req])
        | .exn msg =>
          (.error ⟨500, "IRRMS request failed: " ++ msg⟩, [req])

/-- src/main.py lines 183-202, endpoint `POST /api/arc/fetch`: auth check,
`page = body.page or 1`, a single GET of `f"{ARC_LIVE_URL}?page={page}"`,
normalized json-or-text; a raised transport exception becomes a 500. -/
def arc_fetch (cfg : ProxyConfig) (t : Transport)
    (body : ARCFetchRequest) (x_proxy_secret : Option String) :
    Except HTTPError FetchEnvelope × List HttpRequest :=
  match check_auth cfg x_proxy_secret with
  | .error e => (.error e, [])
  | .ok () =>
    let page := pyOrInt body.page 1
    let url := cfg.arcLiveUrl ++ "?page=" ++ toString page
    let req : HttpRequest := ⟨.GET, url, [], none⟩
    match t req with
    | .ok r => (.ok (normalizeResp r), [req])
    | .exn msg => (.error ⟨500, "ARC request failed: " ++ msg⟩, [req])

/-- Result shape of `GET /api/debug/ip`. -/
structure DebugIpResult where
  hostname : String
  public_ip : Option Json

/-- src/main.py lines 85-99, endpoint `GET /api/debug/ip`: auth check, then
a best-effort GET of the ipify echo service; any failure (transport
exception, unparsable body, missing `ip` field) yields `public_ip = None`
rather than an error. -/
def debug_ip (cfg : ProxyConfig) (t : Transport) (hostname : String)
    (x_proxy_secret : Option String) :
    Except HTTPError DebugIpResult × List HttpRequest :=
  match check_auth cfg x_proxy_secret with
  | .error e => (.error e, [])
  | .ok () =>
    let req : HttpRequest :=
      ⟨.GET, "https://api.ipify.org?format=json", [], none⟩
    let public_ip :=
      match t req with
      | .ok r =>
        match r.json with
        | some j => j.lookup "ip"
        | none => none
      | .exn _ => none
    (.ok ⟨hostname, public_ip⟩, [req])

/-- Result shape of `POST /api/debug/check`. -/
structure DebugCheckResult where
  status_code : Nat
  snippet : String
  headers : List (String × String)

/-- src/main.py lines 102-117, endpoint `POST /api/debug/check`: auth
check, then execute the caller-supplied method (uppercased) and URL and
return `{status_code, snippet: r.text[:800], headers}`; a raised
exception becomes a 500. The method string is kept abstract; only its
uppercased form reaches the request. -/
def debug_check (cfg : ProxyConfig) (t : Transport) (url : String)
    (method : Method) (x_proxy_secret : Option String) :
    Except HTTPError DebugCheckResult × List HttpRequest :=
  match check_auth cfg x_proxy_secret with
  | .error e => (.error e, [])
  | .ok () =>
    let req : HttpRequest := ⟨method, url, [], none⟩
    match t req with
    | .ok r => (.ok ⟨r.status_code, pyTruncate r.text 800, r.headers⟩, [req])
    | .exn msg => (.error ⟨500, "Proxy failed: " ++ msg⟩, [req])

/-- Result shape of the two `/debug/test_*` endpoints: either
`{status, body}` or `{error}`. -/
inductive TestResult where
  | ok (status : Nat) (body : String) : TestResult
  | err (msg : String) : TestResult

/-- src/main.py lines 208-214, endpoint `GET /debug/test_arc`: a bare GET
of the ARC host with NO authentication check of any kind. -/
def test_arc (t : Transport) : TestResult × List HttpRequest :=
  let req : HttpRequest := ⟨.GET, "http://49.249.49.218:5000", [], none⟩
  match t req with
  | .ok r => (.ok r.status_code (pyTruncate r.text 300), [req])
  | .exn msg => (.err msg, [req])

/-- src/main.py lines 216-223, endpoint `GET /debug/test_irrms`: a bare
GET of the IRRMS host with NO authentication check of any kind. -/
def test_irrms (t : Transport) : TestResult × List HttpRequest :=
  let req : HttpRequest :=
    ⟨.GET, "https://irrms-service.locomatrice.com", [], none⟩
  match t req with
  | .ok r => (.ok r.status_code (pyTruncate r.text 300), [req])
  | .exn msg => (.err msg, [req])

/-! The retry policy. src/main.py lines 44-51 configure the shared
session with `Retry(total=2, backoff_factor=0.5, status_forcelist=[502,
503, 504], allowed_methods=["GET", "POST"])`. The loop that interprets
these parameters lives in the urllib3 library, outside src/; it is
modelled here from the description of the policy in the spec, with the
parameters taken from the source. -/

/-- src/main.py line 46: `total=2`, the number of additional attempts
after the first. -/
def retryTotal : Nat := 2

/-- src/main.py line 46: `backoff_factor=0.5`. -/
def backoff_factor : ℚ := 1 / 2

/-- src/main.py line 47: `status_forcelist=[502, 503, 504]`, the only
response statuses that trigger a retry. -/
def status_forcelist : List Nat := [502, 503, 504]

/-- Modelled from the spec: exponential backoff "starting at 0.5
time-units, doubling each attempt" — the sleep before the (k+1)-th
retry. -/
def backoffTime (k : Nat) : ℚ := backoff_factor * 2 ^ k

/-- Outcome of one low-level connection attempt: a response, or a failure
to connect. -/
inductive AttemptOutcome where
  | resp (r : HttpResponse) : AttemptOutcome
  | connectFail (msg : String) : AttemptOutcome

/-- Modelled from the spec: an attempt is retried exactly when the
response status is in the forcelist or the transport failed to
connect. -/
def attemptRetryable : AttemptOutcome → Bool
  | .resp r => status_forcelist.contains r.status_code
  | .connectFail _ => true

/-- Modelled from the spec: the retry loop (it lives in urllib3, not in src/).
`rem` is the number of retries still allowed and `i` the index of the
attempt about to be made; returns the surfaced result and the total
number of attempts made. A retryable outcome with no retries left
surfaces as a raised transport error, never as an envelope. -/
def retryLoop (t : Nat → AttemptOutcome) : Nat → Nat → TransportResult × Nat
  | rem, i =>
    match t i, rem with
    | .resp r, rem =>
      if status_forcelist.contains r.status_code then
        match rem with
        | 0 => (.exn "Max retries exceeded: too many error responses", i + 1)
        | rem' + 1 => retryLoop t rem' (i + 1)
      else (.ok r, i + 1)
    | .connectFail msg, 0 => (.exn msg, i + 1)
    | .connectFail _, rem' + 1 => retryLoop t rem' (i + 1)

/-- One outbound call through the configured session: up to `retryTotal`
retries starting from attempt 0. -/
def sessionRequest (t : Nat → AttemptOutcome) : TransportResult × Nat :=
  retryLoop t retryTotal 0

/-! Concrete configurations, request bodies, responses and transports used
by the witness and counterexample theorems below. The key table mirrors
the four shed codes of `IRRMS_KEYS`, with one key set, one set to the
empty string, one unset, and one set. -/

/-- A concrete configuration: default URLs, secret `s3cr3t`, and a key
table with `TATA` set, `BKSC` empty, `ROU` unset, `BNDM` set. -/
def cfgW : ProxyConfig :=
  ⟨"s3cr3t",
   "http://49.249.49.218:5000/api/login",
   "http://49.249.49.218:5000/api/DefTableLocodetails",
   "https://irrms-service.locomatrice.com/RMS/save/session/management/login",
   "https://irrms-service.locomatrice.com/RMS/get/realTimeData/getAllLocosRealtimeData",
   [("TATA", some "TATAKEY"), ("BKSC", some ""), ("ROU", none),
    ("BNDM", some "BNDMKEY")]⟩

/-- A concrete 200 response whose body parses as the JSON array
`["locos", []]`. -/
def respLocos : HttpResponse :=
  ⟨200, "[\"locos\", []]", some (.arr [.str "locos", .arr []]),
   [("Content-Type", "application/json")]⟩

/-- A transport that answers every request with `respLocos`. -/
def tConst : Transport := fun _ => .ok respLocos

/-- C8: `check_auth` fails with status 401 when the shared-secret header is
absent, fails with status 403 when the header is present but not equal to
the configured proxy secret, and succeeds returning no value otherwise. -/
theorem check_auth_spec (cfg : ProxyConfig) (hdr : Option String) :
    (hdr = none →
      check_auth cfg hdr = .error ⟨401, "Missing X-Proxy-Secret"⟩) ∧
    (∀ s, hdr = some s → s ≠ cfg.proxySecret →
      check_auth cfg hdr = .error ⟨403, "Invalid X-Proxy-Secret"⟩) ∧
    (hdr = some cfg.proxySecret → check_auth cfg hdr = .ok ()) := by
  refine ⟨fun h => ?_, fun s hs hne => ?_, fun h => ?_⟩
  · subst h; rfl
  · subst hs; simp [check_auth, hne]
  · subst h; simp [check_auth]

/-- Witness for C8 at a concrete configuration and concrete headers. -/
theorem check_auth_spec_witness :
    check_auth cfgW none = .error ⟨401, "Missing X-Proxy-Secret"⟩ ∧
    check_auth cfgW (some "wrong") = .error ⟨403, "Invalid X-Proxy-Secret"⟩ ∧
    check_auth cfgW (some "s3cr3t") = .ok () :=
  ⟨(check_auth_spec cfgW none).1 rfl,
   (check_auth_spec cfgW (some "wrong")).2.1 "wrong" rfl (by decide),
   (check_auth_spec cfgW (some "s3cr3t")).2.2 rfl⟩

/-- C3: credential resolution for IRRMS fetch. A non-empty caller-supplied
`authenticateKey` is used unchanged (it reaches the single outbound
request); with no or an empty override, the key is the table entry for
the uppercased shed name; when neither source yields a non-empty key the
endpoint returns 400 and issues no outbound call. -/
theorem irrms_credential_resolution (cfg : ProxyConfig) (t : Transport)
    (now : Nat) (body : IRRMSFetchRequest) :
    (∀ k, body.authenticateKey = some k → k ≠ "" →
      (irrms_fetch cfg t now body (some cfg.proxySecret)).2 =
        [irrmsDataRequest cfg now (pyOrInt body.shedId 0) k]) ∧
    ((body.authenticateKey = none ∨ body.authenticateKey = some "") →
      ∀ k, get_irrms_key_for_shed cfg body.shed_name = some k → k ≠ "" →
      (irrms_fetch cfg t now body (some cfg.proxySecret)).2 =
        [irrmsDataRequest cfg now (pyOrInt body.shedId 0) k]) ∧
    (get_irrms_key_for_shed cfg body.shed_name =
      (cfg.irrmsKeys.lookup (pyUpper body.shed_name)).join) ∧
    ((body.authenticateKey = none ∨ body.authenticateKey = some "") →
      (get_irrms_key_for_shed cfg body.shed_name = none ∨
        get_irrms_key_for_shed cfg body.shed_name = some "") →
      (irrms_fetch cfg t now body (some cfg.proxySecret)).1 =
        .error ⟨400, "No authenticateKey found for shed"⟩ ∧
      (irrms_fetch cfg t now body (some cfg.proxySecret)).2 = []) := by
  refine ⟨fun k hk hne => ?_, fun hov k hk hne => ?_, rfl, fun hov htab => ?_⟩
  · cases hc : t (irrmsDataRequest cfg now (pyOrInt body.shedId 0) k) <;>
      simp [irrms_fetch, check_auth, pyOrStr, hk, hne, hc]
  · rcases hov with hov | hov <;>
      cases hc : t (irrmsDataRequest cfg now (pyOrInt body.shedId 0) k) <;>
      simp [irrms_fetch, check_auth, pyOrStr, hov, hk, hne, hc]
  · rcases hov with hov | hov <;> rcases htab with htab | htab <;>
      simp [irrms_fetch, check_auth, pyOrStr, hov, htab]

/-- Witness for C3 at concrete inputs: an override key is used unchanged;
`shed_name = "tata"` resolves through the table to `TATAKEY`; shed `ROU`
(unset entry) with no override yields 400 and an empty trace. -/
theorem irrms_credential_resolution_witness :
    (irrms_fetch cfgW tConst 1000 ⟨"tata", some 7, some "CALLERKEY"⟩
        (some "s3cr3t")).2 =
      [irrmsDataRequest cfgW 1000 7 "CALLERKEY"] ∧
    (irrms_fetch cfgW tConst 1000 ⟨"tata", some 7, none⟩
        (some "s3cr3t")).2 =
      [irrmsDataRequest cfgW 1000 7 "TATAKEY"] ∧
    (irrms_fetch cfgW tConst 1000 ⟨"ROU", some 7, none⟩
        (some "s3cr3t")).1 =
      .error ⟨400, "No authenticateKey found for shed"⟩ ∧
    (irrms_fetch cfgW tConst 1000 ⟨"ROU", some 7, none⟩
        (some "s3cr3t")).2 = [] :=
  ⟨(irrms_credential_resolution cfgW tConst 1000
      ⟨"tata", some 7, some "CALLERKEY"⟩).1 "CALLERKEY" rfl (by decide),
   (irrms_credential_resolution cfgW tConst 1000
      ⟨"tata", some 7, none⟩).2.1 (.inl rfl) "TATAKEY" (by decide) (by decide),
   ((irrms_credential_resolution cfgW tConst 1000
      ⟨"ROU", some 7, none⟩).2.2.2 (.inl rfl) (.inl (by decide))).1,
   ((irrms_credential_resolution cfgW tConst 1000
      ⟨"ROU", some 7, none⟩).2.2.2 (.inl rfl) (.inl (by decide))).2⟩

/-- Every outbound request `irrms_fetch` issues carries the time-window
payload built with `pyOrInt body.shedId 0` as its shed id. -/
theorem irrms_trace_body (cfg : ProxyConfig) (t : Transport) (now : Nat)
    (body : IRRMSFetchRequest) (hdr : Option String) :
    ∀ req ∈ (irrms_fetch cfg t now body hdr).2,
      req.body = some (irrmsPayload now (pyOrInt body.shedId 0)) := by
  intro req hreq
  cases hauth : check_auth cfg hdr with
  | error e => simp [irrms_fetch, hauth] at hreq
  | ok u =>
    cases hkey : pyOrStr body.authenticateKey
        (get_irrms_key_for_shed cfg body.shed_name) with
    | none => simp [irrms_fetch, hauth, hkey] at hreq
    | some k =>
      by_cases hk : k = ""
      · simp [irrms_fetch, hauth, hkey, hk] at hreq
      · cases hc : t (irrmsDataRequest cfg now (pyOrInt body.shedId 0) k) <;>
          · simp [irrms_fetch, hauth, hkey, hk, hc] at hreq
            subst hreq
            rfl

/-- C10: the outbound IRRMS data-fetch payload carries `shedId = 0` when
the inbound `shedId` is omitted (pydantic default 0), explicit null, or
0; any other supplied value is carried unchanged. -/
theorem irrms_shedId_cases (cfg : ProxyConfig) (t : Transport) (now : Nat)
    (body : IRRMSFetchRequest) (hdr : Option String) :
    ((body.shedId = none ∨ body.shedId = some 0) →
      ∀ req ∈ (irrms_fetch cfg t now body hdr).2,
        ∃ j, req.body = some j ∧ j.lookup "shedId" = some (.num 0)) ∧
    (∀ n : Int, body.shedId = some n → n ≠ 0 →
      ∀ req ∈ (irrms_fetch cfg t now body hdr).2,
        ∃ j, req.body = some j ∧ j.lookup "shedId" = some (.num n)) ∧
    (IRRMSFetchRequest.mkDefault body.shed_name).shedId = some 0 := by
  refine ⟨fun h0 req hreq => ?_, fun n hn hne req hreq => ?_, rfl⟩
  · refine ⟨irrmsPayload now (pyOrInt body.shedId 0),
      irrms_trace_body cfg t now body hdr req hreq, ?_⟩
    have hz : pyOrInt body.shedId 0 = 0 := by
      rcases h0 with h | h <;> simp [pyOrInt, h]
    rw [hz]
    rfl
  · refine ⟨irrmsPayload now (pyOrInt body.shedId 0),
      irrms_trace_body cfg t now body hdr req hreq, ?_⟩
    have hz : pyOrInt body.shedId 0 = n := by simp [pyOrInt, hn, hne]
    rw [hz]
    rfl

/-- Witness for C10 at concrete inputs: a supplied `shedId = 5` reaches
the payload unchanged, and an omitted-style `shedId = null` yields 0. -/
theorem irrms_shedId_cases_witness :
    (∃ j, (irrmsDataRequest cfgW 1000 5 "K").body = some j ∧
      j.lookup "shedId" = some (.num 5)) ∧
    (∃ j, (irrmsDataRequest cfgW 1000 0 "K").body = some j ∧
      j.lookup "shedId" = some (.num 0)) := by
  constructor
  · refine (irrms_shedId_cases cfgW tConst 1000 ⟨"x", some 5, some "K"⟩
      (some "s3cr3t")).2.1 5 rfl (by decide) (irrmsDataRequest cfgW 1000 5 "K") ?_
    rw [show (irrms_fetch cfgW tConst 1000 ⟨"x", some 5, some "K"⟩
      (some "s3cr3t")).2 = [irrmsDataRequest cfgW 1000 5 "K"] from rfl]
    exact List.mem_singleton_self _
  · refine (irrms_shedId_cases cfgW tConst 1000 ⟨"x", none, some "K"⟩
      (some "s3cr3t")).1 (.inl rfl) (irrmsDataRequest cfgW 1000 0 "K") ?_
    rw [show (irrms_fetch cfgW tConst 1000 ⟨"x", none, some "K"⟩
      (some "s3cr3t")).2 = [irrmsDataRequest cfgW 1000 0 "K"] from rfl]
    exact List.mem_singleton_self _

/-- Associativity of string concatenation, via the underlying character
lists. -/
theorem strAppend_assoc (a b c : String) : a ++ b ++ c = a ++ (b ++ c) := by
  apply String.ext
  simp [String.data_append, List.append_assoc]

/-- C4 counterexample: a supplied non-positive page is NOT treated as 1 —
with `page = -3` the constructed URL carries `?page=-3`, not `?page=1`. -/
theorem arc_fetch_nonpositive_page_counterexample :
    ((arc_fetch cfgW tConst ⟨some (-3)⟩ (some "s3cr3t")).2.map
        HttpRequest.url =
      ["http://49.249.49.218:5000/api/DefTableLocodetails?page=-3"]) ∧
    ((arc_fetch cfgW tConst ⟨some (-3)⟩ (some "s3cr3t")).2.map
        HttpRequest.url ≠
      ["http://49.249.49.218:5000/api/DefTableLocodetails?page=1"]) := by
  exact ⟨rfl, by decide⟩

/-- C4 as amended: the ARC fetch issues a single GET to the live-data URL
with `?page=1` when the page is missing or 0 (Python falsiness of
`body.page or 1`), and with the supplied page unchanged — including
negative values — whenever it is nonzero; the pydantic default for an
omitted page is 1. -/
theorem arc_fetch_page (cfg : ProxyConfig) (t : Transport)
    (body : ARCFetchRequest) :
    ((body.page = none ∨ body.page = some 0) →
      (arc_fetch cfg t body (some cfg.proxySecret)).2 =
        [⟨.GET, cfg.arcLiveUrl ++ "?page=1", [], none⟩]) ∧
    (∀ p : Int, body.page = some p → p ≠ 0 →
      (arc_fetch cfg t body (some cfg.proxySecret)).2 =
        [⟨.GET, cfg.arcLiveUrl ++ ("?page=" ++ toString p), [], none⟩]) ∧
    ARCFetchRequest.mkDefault.page = some 1 := by
  refine ⟨fun h0 => ?_, fun p hp hne => ?_, rfl⟩
  · have hz : pyOrInt body.page 1 = 1 := by
      rcases h0 with h | h <;> simp [pyOrInt, h]
    have hurl : cfg.arcLiveUrl ++ "?page=" ++ toString (pyOrInt body.page 1) =
        cfg.arcLiveUrl ++ "?page=1" := by
      rw [hz, strAppend_assoc]
      rfl
    cases hc : t ⟨.GET, cfg.arcLiveUrl ++ "?page=1", [], none⟩ <;>
      simp [arc_fetch, check_auth, hurl, hc]
  · have hz : pyOrInt body.page 1 = p := by simp [pyOrInt, hp, hne]
    have hurl : cfg.arcLiveUrl ++ "?page=" ++ toString (pyOrInt body.page 1) =
        cfg.arcLiveUrl ++ ("?page=" ++ toString p) := by
      rw [hz, strAppend_assoc]
    cases hc : t ⟨.GET, cfg.arcLiveUrl ++ ("?page=" ++ toString p), [], none⟩ <;>
      simp [arc_fetch, check_auth, hurl, hc]

/-- Witness for the amended C4: no page supplied defaults to `?page=1`,
and `page = 3` constructs `?page=3`. -/
theorem arc_fetch_page_witness :
    (arc_fetch cfgW tConst ⟨none⟩ (some "s3cr3t")).2 =
      [⟨.GET, cfgW.arcLiveUrl ++ "?page=1", [], none⟩] ∧
    (arc_fetch cfgW tConst ⟨some 3⟩ (some "s3cr3t")).2 =
      [⟨.GET, cfgW.arcLiveUrl ++ ("?page=" ++ toString (3 : Int)), [],
        none⟩] :=
  ⟨(arc_fetch_page cfgW tConst ⟨none⟩).1 (.inl rfl),
   (arc_fetch_page cfgW tConst ⟨some 3⟩).2.1 3 rfl (by decide)⟩

/-- A 200 response whose body parses as JSON (the array `["a", 1]`). -/
def respJsonArr : HttpResponse :=
  ⟨200, "[\"a\", 1]", some (.arr [.str "a", .num 1]), [("Server", "nginx")]⟩

/-- A transport that answers every request with `respJsonArr`. -/
def tJson : Transport := fun _ => .ok respJsonArr

/-- A 503 response whose body does not parse as JSON. -/
def respPlainText : HttpResponse :=
  ⟨503, "Service Unavailable", none, []⟩

/-- C5 counterexample: at the debug passthrough endpoint the json/text
dichotomy does not hold — a body that parses as JSON is still returned as
a raw text snippet (capped at 800), with no json field at all. -/
theorem debug_check_json_body_counterexample :
    respJsonArr.json = some (.arr [.str "a", .num 1]) ∧
    (debug_check cfgW tJson "http://example.com/x" .GET
        (some "s3cr3t")).1 =
      .ok ⟨200, "[\"a\", 1]", [("Server", "nginx")]⟩ :=
  ⟨rfl, rfl⟩

/-- C5 as amended: for the fetch endpoints the normalizer is total and
yields the upstream status plus exactly one of json/text — json when the
body parses, otherwise the text truncated to 2000 characters; the debug
passthrough endpoint instead always returns the status, a text snippet
truncated to 800 characters, and the headers, regardless of whether the
body parses as JSON. -/
theorem normalizer_spec (r : HttpResponse) (cfg : ProxyConfig)
    (t : Transport) (url : String) (m : Method) :
    (∀ j, r.json = some j →
      normalizeResp r = ⟨r.status_code, some j, none⟩) ∧
    (r.json = none →
      normalizeResp r = ⟨r.status_code, none, some (pyTruncate r.text 2000)⟩) ∧
    (t ⟨m, url, [], none⟩ = .ok r →
      (debug_check cfg t url m (some cfg.proxySecret)).1 =
        .ok ⟨r.status_code, pyTruncate r.text 800, r.headers⟩) := by
  refine ⟨fun j hj => ?_, fun hj => ?_, fun hc => ?_⟩
  · simp [normalizeResp, hj]
  · simp [normalizeResp, hj]
  · simp [debug_check, check_auth, hc]

/-- Witness for the amended C5: a JSON body yields a json-only envelope, a
non-JSON body yields a text-only envelope, and the debug passthrough
returns the snippet shape. -/
theorem normalizer_spec_witness :
    normalizeResp respJsonArr = ⟨200, some (.arr [.str "a", .num 1]), none⟩ ∧
    normalizeResp respPlainText = ⟨503, none, some "Service Unavailable"⟩ ∧
    (debug_check cfgW tJson "http://example.com/x" .GET
        (some "s3cr3t")).1 =
      .ok ⟨200, "[\"a\", 1]", [("Server", "nginx")]⟩ :=
  ⟨(normalizer_spec respJsonArr cfgW tJson "http://example.com/x" .GET).1
      (.arr [.str "a", .num 1]) rfl,
   (normalizer_spec respPlainText cfgW tJson "http://example.com/x"
      .GET).2.1 rfl,
   (normalizer_spec respJsonArr cfgW tJson "http://example.com/x" .GET).2.2
      rfl⟩

/-- An IRRMS body for shed `tata` (resolved via the key table), with a
supplied `shedId` and no override key. -/
def bodyTATA : IRRMSFetchRequest := ⟨"tata", some 7, none⟩

/-- C1 counterexample: a run that passes authentication and credential
resolution (it returns an ok envelope) issues ZERO requests to the IRRMS
login URL — not "exactly one login POST" — and exactly one request in
total, which goes straight to the data endpoint. -/
theorem irrms_no_login_call_counterexample :
    ((irrms_fetch cfgW tConst 1000 bodyTATA (some "s3cr3t")).2.filter
        (fun q => q.url == cfgW.irrmsLoginUrl)).length = 0 ∧
    (irrms_fetch cfgW tConst 1000 bodyTATA (some "s3cr3t")).2.length = 1 ∧
    (irrms_fetch cfgW tConst 1000 bodyTATA (some "s3cr3t")).1 =
      .ok ⟨200, some (.arr [.str "locos", .arr []]), none⟩ :=
  ⟨rfl, rfl, rfl⟩

/-- C1 as amended: after authentication and credential resolution succeed,
the adapter issues exactly one outbound call — a POST directly to the
IRRMS data URL carrying the resolved key — with no login phase at all,
and the response of that single call is normalized into the returned
envelope. -/
theorem irrms_fetch_single_post (cfg : ProxyConfig) (t : Transport)
    (now : Nat) (body : IRRMSFetchRequest) (k : String)
    (hk : pyOrStr body.authenticateKey
      (get_irrms_key_for_shed cfg body.shed_name) = some k)
    (hne : k ≠ "") :
    (irrms_fetch cfg t now body (some cfg.proxySecret)).2 =
      [irrmsDataRequest cfg now (pyOrInt body.shedId 0) k] ∧
    (irrmsDataRequest cfg now (pyOrInt body.shedId 0) k).method = .POST ∧
    (irrmsDataRequest cfg now (pyOrInt body.shedId 0) k).url =
      cfg.irrmsDataUrl ∧
    (∀ r, t (irrmsDataRequest cfg now (pyOrInt body.shedId 0) k) = .ok r →
      (irrms_fetch cfg t now body (some cfg.proxySecret)).1 =
        .ok (normalizeResp r)) := by
  refine ⟨?_, rfl, rfl, fun r hr => ?_⟩
  · cases hc : t (irrmsDataRequest cfg now (pyOrInt body.shedId 0) k) <;>
      simp [irrms_fetch, check_auth, hk, hne, hc]
  · simp [irrms_fetch, check_auth, hk, hne, hr]

/-- Witness for the amended C1 at concrete inputs. -/
theorem irrms_fetch_single_post_witness :
    (irrms_fetch cfgW tConst 1000 bodyTATA (some "s3cr3t")).2 =
      [irrmsDataRequest cfgW 1000 7 "TATAKEY"] ∧
    (irrmsDataRequest cfgW 1000 7 "TATAKEY").method = .POST ∧
    (irrmsDataRequest cfgW 1000 7 "TATAKEY").url = cfgW.irrmsDataUrl ∧
    (irrms_fetch cfgW tConst 1000 bodyTATA (some "s3cr3t")).1 =
      .ok (normalizeResp respLocos) := by
  have h := irrms_fetch_single_post cfgW tConst 1000 bodyTATA "TATAKEY"
    (by decide) (by decide)
  exact ⟨h.1, h.2.1, h.2.2.1, h.2.2.2 respLocos rfl⟩

/-- C2 counterexample: the two `/debug/test_*` endpoints take no secret at
all and issue one outbound call unconditionally — the upstream answer
comes back without any Authenticator check having run. -/
theorem test_endpoints_unauthenticated_counterexample :
    (test_arc tConst).2.length = 1 ∧
    (test_irrms tConst).2.length = 1 ∧
    (test_arc tConst).1 = .ok 200 "[\"locos\", []]" ∧
    (test_irrms tConst).1 = .ok 200 "[\"locos\", []]" :=
  ⟨rfl, rfl, rfl, rfl⟩

/-- C2 as amended: the four endpoints that call `check_auth` (IRRMS fetch,
ARC fetch, debug ip, debug passthrough) issue zero outbound calls when
the shared-secret header is missing or wrong, and the failure is a 401 or
403; the `/debug/test_*` endpoints are exempt from the property, as they
perform no authentication (see the counterexample). -/
theorem auth_gate_before_outbound (cfg : ProxyConfig) (t : Transport)
    (now : Nat) (body : IRRMSFetchRequest) (abody : ARCFetchRequest)
    (hostname url : String) (m : Method) (hdr : Option String)
    (h : hdr = none ∨ ∃ s, hdr = some s ∧ s ≠ cfg.proxySecret) :
    (irrms_fetch cfg t now body hdr).2 = [] ∧
    (arc_fetch cfg t abody hdr).2 = [] ∧
    (debug_ip cfg t hostname hdr).2 = [] ∧
    (debug_check cfg t url m hdr).2 = [] ∧
    ∃ e : HTTPError,
      (irrms_fetch cfg t now body hdr).1 = .error e ∧
      (e.status_code = 401 ∨ e.status_code = 403) := by
  have hauth : ∃ e : HTTPError, check_auth cfg hdr = .error e ∧
      (e.status_code = 401 ∨ e.status_code = 403) := by
    rcases h with h | ⟨s, hs, hne⟩
    · exact ⟨⟨401, "Missing X-Proxy-Secret"⟩, by simp [check_auth, h],
        .inl rfl⟩
    · exact ⟨⟨403, "Invalid X-Proxy-Secret"⟩, by simp [check_auth, hs, hne],
        .inr rfl⟩
  obtain ⟨e, he, hcode⟩ := hauth
  refine ⟨?_, ?_, ?_, ?_, e, ?_, hcode⟩ <;>
    simp [irrms_fetch, arc_fetch, debug_ip, debug_check, he]

/-- Witness for the amended C2: with a wrong secret, all four
authenticated endpoints issue no outbound call. -/
theorem auth_gate_before_outbound_witness :
    (irrms_fetch cfgW tConst 1000 bodyTATA (some "wrong")).2 = [] ∧
    (arc_fetch cfgW tConst ⟨some 3⟩ (some "wrong")).2 = [] ∧
    (debug_ip cfgW tConst "host" (some "wrong")).2 = [] ∧
    (debug_check cfgW tConst "http://example.com" .GET
      (some "wrong")).2 = [] ∧
    ∃ e : HTTPError,
      (irrms_fetch cfgW tConst 1000 bodyTATA (some "wrong")).1 =
        .error e ∧ (e.status_code = 401 ∨ e.status_code = 403) :=
  auth_gate_before_outbound cfgW tConst 1000 bodyTATA ⟨some 3⟩ "host"
    "http://example.com" .GET (some "wrong")
    (.inr ⟨"wrong", rfl, by decide⟩)

/-- C9: noninterference in the resolved credential. Two IRRMS fetch runs
that differ only in the (non-empty) credential value and receive the same
upstream response produce identical client-visible results; the envelope
is a function of the upstream response alone, so the injected secret
never flows into it. -/
theorem irrms_credential_noninterference (cfg : ProxyConfig)
    (t₁ t₂ : Transport) (now : Nat) (shed : String) (sid : Option Int)
    (k₁ k₂ : String) (h₁ : k₁ ≠ "") (h₂ : k₂ ≠ "")
    (hresp : t₁ (irrmsDataRequest cfg now (pyOrInt sid 0) k₁) =
      t₂ (irrmsDataRequest cfg now (pyOrInt sid 0) k₂)) :
    (irrms_fetch cfg t₁ now ⟨shed, sid, some k₁⟩
      (some cfg.proxySecret)).1 =
    (irrms_fetch cfg t₂ now ⟨shed, sid, some k₂⟩
      (some cfg.proxySecret)).1 := by
  cases hc : t₂ (irrmsDataRequest cfg now (pyOrInt sid 0) k₂) <;>
    rw [hc] at hresp <;>
    simp [irrms_fetch, check_auth, pyOrStr, h₁, h₂, hresp, hc]

/-- Witness for C9: two concrete runs with different keys and the same
upstream response return the same envelope. -/
theorem irrms_credential_noninterference_witness :
    (irrms_fetch cfgW tConst 1000 ⟨"x", some 2, some "KEY-A"⟩
      (some "s3cr3t")).1 =
    (irrms_fetch cfgW tConst 1000 ⟨"x", some 2, some "KEY-B"⟩
      (some "s3cr3t")).1 :=
  irrms_credential_noninterference cfgW tConst tConst 1000 "x" (some 2)
    "KEY-A" "KEY-B" (by decide) (by decide) rfl

/-- C7: for a frozen clock `now` (at least 15 minutes past the epoch), the
data-fetch payload carries `startDate` = today and `endDate` = today plus
one day in `DD-MM-YYYY` format, `fromDateTime` = now minus 15 minutes and
`toDateTime` = now plus 5 minutes in `DD-MM-YYYY HH:MM:SS` format — a
window of exactly 20 minutes anchored 15 minutes before `now` — together
with the fixed fields `locoId:0, locoTypeId:0, vendorId:0, shedId,
actionMode, locoNo, refId`. -/
theorem irrms_payload_time_window (cfg : ProxyConfig) (now : Nat)
    (sid : Int) (k : String) (h : 900 ≤ now) :
    (irrmsDataRequest cfg now sid k).body = some (irrmsPayload now sid) ∧
    (irrmsPayload now sid).lookup "startDate" =
      some (.str (fmtDate now)) ∧
    (irrmsPayload now sid).lookup "endDate" =
      some (.str (fmtDate (now + 86400))) ∧
    (irrmsPayload now sid).lookup "fromDateTime" =
      some (.str (fmtDateTime (now - 900))) ∧
    (irrmsPayload now sid).lookup "toDateTime" =
      some (.str (fmtDateTime (now + 300))) ∧
    (now + 300) - (now - 900) = 1200 ∧
    (now - 900) + 900 = now ∧
    (irrmsPayload now sid).lookup "locoId" = some (.num 0) ∧
    (irrmsPayload now sid).lookup "locoTypeId" = some (.num 0) ∧
    (irrmsPayload now sid).lookup "vendorId" = some (.num 0) ∧
    (irrmsPayload now sid).lookup "shedId" = some (.num sid) ∧
    (irrmsPayload now sid).lookup "actionMode" =
      some (.str "temperatureventilation") ∧
    (irrmsPayload now sid).lookup "locoNo" = some (.str "All") ∧
    (irrmsPayload now sid).lookup "refId" =
      some (.str "GetSearchData") := by
  refine ⟨rfl, rfl, rfl, rfl, rfl, by omega, by omega, rfl, rfl, rfl,
    rfl, rfl, rfl, rfl⟩

/-- Witness for C7 at the frozen instant 1700000000 (2023-11-14 22:13:20
UTC): the window runs from 21:58:20 to 22:18:20 of that day and the dates
are 14/15 November 2023. -/
theorem irrms_payload_time_window_witness :
    (irrmsPayload 1700000000 3).lookup "startDate" =
      some (.str "14-11-2023") ∧
    (irrmsPayload 1700000000 3).lookup "endDate" =
      some (.str "15-11-2023") ∧
    (irrmsPayload 1700000000 3).lookup "fromDateTime" =
      some (.str "14-11-2023 21:58:20") ∧
    (irrmsPayload 1700000000 3).lookup "toDateTime" =
      some (.str "14-11-2023 22:18:20") ∧
    (1700000000 + 300) - (1700000000 - 900) = 1200 := by
  have h := irrms_payload_time_window cfgW 1700000000 3 "K" (by decide)
  refine ⟨?_, ?_, ?_, ?_, h.2.2.2.2.2.1⟩
  · rw [h.2.1, show fmtDate 1700000000 = "14-11-2023" from by decide]
  · rw [h.2.2.1,
      show fmtDate (1700000000 + 86400) = "15-11-2023" from by decide]
  · rw [h.2.2.2.1, show fmtDateTime (1700000000 - 900) =
      "14-11-2023 21:58:20" from by decide]
  · rw [h.2.2.2.2.1, show fmtDateTime (1700000000 + 300) =
      "14-11-2023 22:18:20" from by decide]

/-- Exhaustion lemma for the retry loop: when every attempt within budget
is retryable, the loop surfaces a raised transport error after using the
whole budget. -/
theorem retryLoop_exhaust (t : Nat → AttemptOutcome) :
    ∀ rem i, (∀ j, j ≤ rem → attemptRetryable (t (i + j)) = true) →
      ∃ msg, retryLoop t rem i = (.exn msg, i + rem + 1) := by
  intro rem
  induction rem with
  | zero =>
    intro i h
    have h0 := h 0 (Nat.le_refl 0)
    rw [Nat.add_zero] at h0
    cases ht : t i with
    | resp r =>
      rw [ht] at h0
      simp only [attemptRetryable] at h0
      have h0m : r.status_code ∈ status_forcelist := by simpa using h0
      exact ⟨"Max retries exceeded: too many error responses",
        by simp [retryLoop, ht, h0m]⟩
    | connectFail msg => exact ⟨msg, by simp [retryLoop, ht]⟩
  | succ rem ih =>
    intro i h
    have h0 := h 0 (Nat.zero_le _)
    rw [Nat.add_zero] at h0
    have hrec : ∀ j, j ≤ rem → attemptRetryable (t (i + 1 + j)) = true := by
      intro j hj
      have hh := h (j + 1) (by omega)
      rwa [show i + (j + 1) = i + 1 + j from by omega] at hh
    obtain ⟨msg, hmsg⟩ := ih (i + 1) hrec
    cases ht : t i with
    | resp r =>
      rw [ht] at h0
      simp only [attemptRetryable] at h0
      have h0m : r.status_code ∈ status_forcelist := by simpa using h0
      refine ⟨msg, ?_⟩
      rw [show retryLoop t (rem + 1) i = retryLoop t rem (i + 1) from by
        simp [retryLoop, ht, h0m]]
      rw [hmsg]
      congr 1
      omega
    | connectFail m =>
      refine ⟨msg, ?_⟩
      rw [show retryLoop t (rem + 1) i = retryLoop t rem (i + 1) from by
        simp [retryLoop, ht]]
      rw [hmsg]
      congr 1
      omega

/-- C6: the configured policy allows at most 2 additional attempts with
exponential backoff starting at 0.5 and doubling; a response status
outside {502, 503, 504} is returned as a normal response on the spot
(first attempt, no error); two retryable statuses followed by a success
yield exactly 3 attempts and the final response surfaced for
normalization; three retryable outcomes yield a surfaced transport error,
not an envelope; a connection failure is retried like a retryable
status. -/
theorem retry_policy_spec :
    retryTotal = 2 ∧
    backoffTime 0 = 1 / 2 ∧
    (∀ k, backoffTime (k + 1) = 2 * backoffTime k) ∧
    (∀ t r, t 0 = .resp r →
      status_forcelist.contains r.status_code = false →
      sessionRequest t = (.ok r, 1)) ∧
    (∀ t r₀ r₁ r₂, t 0 = .resp r₀ → t 1 = .resp r₁ → t 2 = .resp r₂ →
      status_forcelist.contains r₀.status_code = true →
      status_forcelist.contains r₁.status_code = true →
      status_forcelist.contains r₂.status_code = false →
      sessionRequest t = (.ok r₂, 3)) ∧
    (∀ t, (∀ j, j ≤ 2 → attemptRetryable (t j) = true) →
      ∃ msg, sessionRequest t = (.exn msg, 3)) ∧
    (∀ t m r, t 0 = .connectFail m → t 1 = .resp r →
      status_forcelist.contains r.status_code = false →
      sessionRequest t = (.ok r, 2)) := by
  refine ⟨rfl, by norm_num [backoffTime, backoff_factor], fun k => ?_,
    fun t r h0 hs => ?_,
    fun t r₀ r₁ r₂ h0 h1 h2 hs0 hs1 hs2 => ?_,
    fun t h => ?_, fun t m r h0 h1 hs => ?_⟩
  · simp [backoffTime, pow_succ]
    ring
  · have hsm : r.status_code ∉ status_forcelist := by simpa using hs
    simp [sessionRequest, retryTotal, retryLoop, h0, hsm]
  · have hs0m : r₀.status_code ∈ status_forcelist := by simpa using hs0
    have hs1m : r₁.status_code ∈ status_forcelist := by simpa using hs1
    have hs2m : r₂.status_code ∉ status_forcelist := by simpa using hs2
    simp [sessionRequest, retryTotal, retryLoop, h0, h1, h2, hs0m, hs1m,
      hs2m]
  · have hx := retryLoop_exhaust t 2 0 (by
      intro j hj
      simpa using h j hj)
    simpa [sessionRequest, retryTotal] using hx
  · have hsm : r.status_code ∉ status_forcelist := by simpa using hs
    simp [sessionRequest, retryTotal, retryLoop, h0, h1, hsm]

/-- A 503 response (in the retry forcelist) with a plain-text body. -/
def resp503 : HttpResponse := ⟨503, "Service Unavailable", none, []⟩

/-- A stub transport: 503 on the first two attempts, then the normal
200. -/
def stubFlaky : Nat → AttemptOutcome :=
  fun i => if i < 2 then .resp resp503 else .resp respLocos

/-- A stub transport answering 503 on every attempt. -/
def stubAlways503 : Nat → AttemptOutcome := fun _ => .resp resp503

/-- Witness for C6: 503 twice then 200 gives exactly 3 attempts and the
final success; 503 on all attempts surfaces a transport error after 3
attempts; the first backoff is 0.5 and the next doubles it. -/
theorem retry_policy_spec_witness :
    sessionRequest stubFlaky = (.ok respLocos, 3) ∧
    (∃ msg, sessionRequest stubAlways503 = (.exn msg, 3)) ∧
    backoffTime 0 = 1 / 2 ∧ backoffTime 1 = 2 * backoffTime 0 := by
  refine ⟨?_, ?_, retry_policy_spec.2.1, retry_policy_spec.2.2.1 0⟩
  · exact retry_policy_spec.2.2.2.2.1 stubFlaky resp503 resp503 respLocos
      rfl rfl rfl rfl rfl rfl
  · exact retry_policy_spec.2.2.2.2.2.1 stubAlways503
      (fun j hj => rfl)
